import Mathlib

/-!
Verification of the FlexBE `OperatableStateMachine` core
(`flexbe_core/core/operatable_state_machine.py`).

The development shallowly embeds the operations of the operatable state
machine: the autonomy-gated transition test, the mirror synchronization
status and explicit-sync draining, the fail-safe execution wrapper, the
attach and structure-request command callbacks, and the recursive stop
notification.  Python dictionaries are modelled as association lists,
Python exceptions as an `Except` error type, and published ROS messages
as values accumulated in a list.
-/

set_option maxRecDepth 8000

namespace FlexBE

/-- Error values standing for the Python exceptions the embedded code can
raise: `KeyError` (a `LookupError`), `AttributeError` (attribute access on
`None`), `TypeError`, and a catch-all for any other exception. -/
inductive PyErr where
  | keyError
  | attributeError
  | typeError
  | otherError
deriving DecidableEq

/-- Python's `KeyError` and `IndexError` are subclasses of `LookupError`;
of the modelled errors only `KeyError` is one. -/
def PyErr.isLookupError : PyErr → Bool
  | .keyError => true
  | _ => false

/-- UTF-8 encoding of one Unicode code point, as produced by Python's
`str.encode()` (an external primitive used via `path.encode()`). -/
def utf8EncodeCodepoint (n : Nat) : List Nat :=
  if n < 128 then [n]
  else if n < 2048 then [192 + n / 64, 128 + n % 64]
  else if n < 65536 then [224 + n / 4096, 128 + n / 64 % 64, 128 + n % 64]
  else [240 + n / 262144, 128 + n / 4096 % 64, 128 + n / 64 % 64, 128 + n % 64]

/-- UTF-8 bytes of a string, the value of Python's `s.encode()`. -/
def utf8Bytes (s : String) : List Nat :=
  s.data.flatMap fun c => utf8EncodeCodepoint c.toNat

/-- One step of the Adler-32 state update: `a := (a + byte) % 65521`,
`b := (b + a) % 65521`. -/
def adlerStep : Nat × Nat → Nat → Nat × Nat
  | (a, b), byte =>
    ((a + byte) % 65521, (b + (a + byte) % 65521) % 65521)

/-- Adler-32 checksum of a byte sequence, the value of `zlib.adler32`
(an external primitive; initial state `a = 1`, `b = 0`, result
`b * 65536 + a`). -/
def adler32 (bytes : List Nat) : Nat :=
  let p := bytes.foldl adlerStep (1, 0)
  p.2 * 65536 + p.1

/-- First-match lookup in an association list, the value of a Python
`dict` subscript / `.get` on the modelled dictionaries. -/
def lookupStr {α : Type} : List (String × α) → String → Option α
  | [], _ => none
  | (k, v) :: rest, key => if k = key then some v else lookupStr rest key

/-- Python `d.get(key, default)` on an outcome → required-level dict. -/
def dictGetD (d : List (String × Int)) (k : String) (dflt : Int) : Int :=
  (lookupStr d k).getD dflt

/-- A per-child autonomy dictionary: outcome → required autonomy level. -/
abbrev AutonomyMap := List (String × Int)

/-- The `_autonomy` field: child label → autonomy dictionary, where a
child added with `autonomy=None` is recorded as `none` (Python `None`). -/
abbrev AutonomyDict := List (String × Option AutonomyMap)

/-- Initial value of the process-wide class attribute
`OperatableStateMachine.autonomy_level = 3`. -/
def autonomy_level_default : Int := 3

/-- `is_transition_allowed(label, outcome)`:
`self._autonomy[label].get(outcome, -1) < OperatableStateMachine.autonomy_level`.
An unregistered `label` raises `KeyError`; a label registered with
`autonomy=None` raises `AttributeError` (`None` has no `.get`); otherwise
the required level defaults to `-1` when the outcome has no entry. -/
def is_transition_allowed (aut : AutonomyDict) (level : Int)
    (label outcome : String) : Except PyErr Bool :=
  match lookupStr aut label with
  | none => .error .keyError
  | some none => .error .attributeError
  | some (some m) => .ok (decide (dictGetD m outcome (-1) < level))

/-- `get_required_autonomy(outcome)`:
`self._autonomy[self.current_state_label][outcome]`.  An unregistered
current label raises `KeyError`, a `None` dictionary raises `TypeError`
(`None` is not subscriptable), a missing outcome raises `KeyError`. -/
def get_required_autonomy (aut : AutonomyDict)
    (current_state_label outcome : String) : Except PyErr Int :=
  match lookupStr aut current_state_label with
  | none => .error .keyError
  | some none => .error .typeError
  | some (some m) =>
      match lookupStr m outcome with
      | none => .error .keyError
      | some v => .ok v

/-- The checksum expression used for a deep-state path:
`zlib.adler32(path.encode()) & 0x7fffffff` when a path is present,
`0` otherwise. -/
def pathChecksum : Option String → Nat
  | some p => adler32 (utf8Bytes p) &&& 0x7fffffff
  | none => 0

/-- A `BehaviorSync` message.  `behavior_id` holds the Python value
assigned to the field (`none` models the Python `None` object). -/
structure BehaviorSync where
  behavior_id : Option Int
  current_state_checksum : Nat

/-- `get_latest_status()`: reads the behavior id and the last deep state
path under the status lock and builds a `BehaviorSync` message with
`behavior_id = beh_id if beh_id is not None else 0` and the masked
Adler-32 checksum of the path (or `0` when no path is active). -/
def get_latest_status (beh_id : Option Int)
    (last_deep_state_path : Option String) : BehaviorSync :=
  { behavior_id := some (beh_id.getD 0)
    current_state_checksum := pathChecksum last_deep_state_path }

/-- State seen by the fail-safe execution wrapper: the active state of
the underlying traversal (type `S`) and the retained `_last_exception`
(exception type `E`). -/
structure WrapperState (E S : Type) where
  current_state : S
  last_exception : Option E

/-- `_execute_current_state()`: runs one step of the inherited traversal
(`inner`, the external single-step primitive, which may produce an
outcome and a new traversal state or raise).  On success the produced
outcome is returned and `_last_exception` is cleared; on any raised
exception the wrapper catches it, records it in `_last_exception`, logs,
and returns `None` as the outcome, leaving the active state untouched. -/
def execute_current_state {E S : Type}
    (inner : S → Except E (Option String × S))
    (st : WrapperState E S) : Option String × WrapperState E S :=
  match inner st.current_state with
  | .ok (outcome, s2) => (outcome, { current_state := s2, last_exception := none })
  | .error exc => (none, { st with last_exception := some exc })

/-- One `Container` entry of a `ContainerStructure` message; unassigned
fields keep the message defaults (empty lists). -/
structure ContainerMsg where
  path : String
  children : List String := []
  outcomes : List String := []
  transitions : List String := []
  autonomy : List Int := []

/-- A `ContainerStructure` message. -/
structure ContainerStructure where
  containers : List ContainerMsg
  behavior_id : Option Int

/-- A per-child transition dictionary: outcome → destination label. -/
abbrev TransMap := List (String × String)

/-- A node of the built state-machine tree: a leaf state or a nested
`OperatableStateMachine`.  A container carries its `_transitions` and
`_autonomy` dictionaries exactly as `add` stores them: child label →
outcome dictionary, where `_autonomy[label]` is `none` when the child
was added with `autonomy=None` (line 85 stores it unvalidated). -/
inductive SNode where
  | leaf (name path : String) (outcomes : List String)
  | cont (name path : String) (outcomes : List String)
      (transitions : List (String × TransMap))
      (autonomy : List (String × Option AutonomyMap))
      (children : List SNode)

/-- The `name` attribute of a node. -/
def SNode.name : SNode → String
  | .leaf n _ _ => n
  | .cont n _ _ _ _ _ => n

/-- The `path` attribute of a node. -/
def SNode.path : SNode → String
  | .leaf _ p _ => p
  | .cont _ p _ _ _ _ => p

/-- The declared `outcomes` of a node. -/
def SNode.outcomes : SNode → List String
  | .leaf _ _ outs => outs
  | .cont _ _ outs _ _ _ => outs

/-- Completion of a child's first entry by its parent: after the child's
entries are appended, the parent assigns `outcomes`, `transitions` and
`autonomy` on the child's own (first) entry. -/
def completeEntry (outs trans : List String) (auts : List Int) :
    List ContainerMsg → List ContainerMsg
  | [] => []
  | e :: es =>
      { e with outcomes := outs, transitions := trans, autonomy := auts } :: es

/-- A Python list comprehension `[m[o] for o in outs]` over a dictionary:
the first missing key raises `KeyError`. -/
def lookupAll {α : Type} (m : List (String × α)) :
    List String → Except PyErr (List α)
  | [] => .ok []
  | o :: rest =>
      match lookupStr m o with
      | none => .error .keyError
      | some v =>
          match lookupAll m rest with
          | .error e => .error e
          | .ok vs => .ok (v :: vs)

/-- The value of `[self._transitions[name][outcome] for outcome in outs]`:
an unregistered child name raises `KeyError`, as does a missing outcome. -/
def childTransitions (tr : List (String × TransMap)) (cname : String)
    (outs : List String) : Except PyErr (List String) :=
  match lookupStr tr cname with
  | none => .error .keyError
  | some m => lookupAll m outs

/-- The value of `[self._autonomy[name][outcome] for outcome in outs]`:
an unregistered child name raises `KeyError`, a child added with
`autonomy=None` raises `TypeError` (`None` is not subscriptable), and a
missing outcome raises `KeyError`. -/
def childAutonomy (au : List (String × Option AutonomyMap)) (cname : String)
    (outs : List String) : Except PyErr (List Int) :=
  match lookupStr au cname with
  | none => .error .keyError
  | some none => .error .typeError
  | some (some m) => lookupAll m outs

mutual

/-- `_add_to_structure_msg`: appends this node's entry (for a container:
path and child names), then appends each child's entries in order, the
parent filling in every child's outcomes, per-outcome transition targets
and per-outcome required autonomy.  Any `KeyError`/`TypeError` raised by
the dictionary lookups of lines 117-118 aborts the whole build. -/
def add_to_structure_msg : SNode → Except PyErr (List ContainerMsg)
  | .leaf _ p _ => .ok [{ path := p }]
  | .cont _ p _ tr au cs =>
      match children_to_structure_msg tr au cs with
      | .error e => .error e
      | .ok entries =>
          .ok ({ path := p, children := cs.map SNode.name } :: entries)

/-- The loop body of `_add_to_structure_msg` over the `_states` list: for
each child, first its own entries (recursing into nested containers),
then its transition list, then its autonomy list, in the evaluation
order of the source, propagating the first raised error. -/
def children_to_structure_msg (tr : List (String × TransMap))
    (au : List (String × Option AutonomyMap)) :
    List SNode → Except PyErr (List ContainerMsg)
  | [] => .ok []
  | c :: rest =>
      match add_to_structure_msg c with
      | .error e => .error e
      | .ok centries =>
          match childTransitions tr c.name c.outcomes with
          | .error e => .error e
          | .ok ts =>
              match childAutonomy au c.name c.outcomes with
              | .error e => .error e
              | .ok auts =>
                  match children_to_structure_msg tr au rest with
                  | .error e => .error e
                  | .ok rentries =>
                      .ok (completeEntry c.outcomes ts auts centries ++ rentries)

end

/-- Assignment `container_msg.outcomes = self.outcomes` performed by
`_build_structure_msg` on the root's own entry. -/
def setHeadOutcomes (outs : List String) :
    List ContainerMsg → List ContainerMsg
  | [] => []
  | e :: es => { e with outcomes := outs } :: es

/-- `_build_structure_msg()`: the full structural description of the
tree, with `behavior_id = self.id`; a raised error propagates. -/
def build_structure_msg (root : SNode) (beh_id : Option Int) :
    Except PyErr ContainerStructure :=
  match add_to_structure_msg root with
  | .error e => .error e
  | .ok entries =>
      .ok { containers := setHeadOutcomes root.outcomes entries
            behavior_id := beh_id }

mutual

/-- Depth-first enumeration of the node paths of a tree, each parent
before its children (the ordering the structure message is specified to
follow). -/
def preorderPaths : SNode → List String
  | .leaf _ p _ => [p]
  | .cont _ p _ _ _ cs => p :: preorderPathsList cs

/-- Depth-first path enumeration of a list of sibling subtrees. -/
def preorderPathsList : List SNode → List String
  | [] => []
  | c :: rest => preorderPaths c ++ preorderPathsList rest

end

/-- Checks that an entry carries one transition target and one required
autonomy value per declared outcome. -/
def entryLenOK (e : ContainerMsg) : Bool :=
  e.transitions.length == e.outcomes.length &&
  e.autonomy.length == e.outcomes.length

/-- A message published on one of the state machine's topics. -/
inductive PubMsg where
  | behaviorSync (behavior_id : Option Int) (current_state_checksum : Nat)
  | commandFeedback (command : String) (args : List String)
  | containerStructure (msg : ContainerStructure)

/-- The instance state read and written by the command callbacks and the
sync draining: `self.id`, `self.name`, the `_inner_sync_request` flag,
the ros-control (remote control) flag, and the process-wide class
attribute `autonomy_level`. -/
structure SyncProcState where
  id : Option Int
  name : String
  inner_sync_request : Bool
  is_controlled : Bool
  autonomy_level : Int

/-- `process_sync_request()`: when `_inner_sync_request` is set, builds a
`BehaviorSync` message with `behavior_id = self.id` and checksum `0`,
resolves the deep active state (`deep`, which may raise — `.error` — or
find no active state — `.ok none`), on success overwrites the checksum
with the masked Adler-32 of the deep path, catches and logs any error,
clears the flag, and publishes the sync message followed by a
`CommandFeedback(command="sync", args=[])`.  Without the flag it only
logs and publishes nothing. -/
def process_sync_request (st : SyncProcState)
    (deep : Except PyErr (Option String)) : SyncProcState × List PubMsg :=
  if st.inner_sync_request then
    let checksum : Nat :=
      match deep with
      | .ok (some p) => adler32 (utf8Bytes p) &&& 0x7fffffff
      | .ok none => 0
      | .error _ => 0
    ({ st with inner_sync_request := false },
     [PubMsg.behaviorSync st.id checksum,
      PubMsg.commandFeedback "sync" []])
  else (st, [])

/-- `_attach_callback(msg)`: sets the process-wide autonomy level to the
message value, enables ros control, sets `_inner_sync_request`, and
publishes a `CommandFeedback(command="attach")` whose args hold
`self.name`. -/
def attach_callback (st : SyncProcState) (level : Int) :
    SyncProcState × List PubMsg :=
  ({ st with autonomy_level := level, is_controlled := true,
             inner_sync_request := true },
   [PubMsg.commandFeedback "attach" [st.name]])

/-- `_mirror_structure_callback(msg)`: builds and publishes the full
structure message built with `self.id`, then enables ros control.  When
building the message raises, the exception escapes the callback before
anything is published and before ros control is enabled. -/
def mirror_structure_callback (st : SyncProcState) (root : SNode) :
    Except PyErr (SyncProcState × List PubMsg) :=
  match build_structure_msg root st.id with
  | .error e => .error e
  | .ok msg =>
      .ok ({ st with is_controlled := true }, [PubMsg.containerStructure msg])

/-- True exactly on a non-raising (`.ok`) result. -/
def exceptIsOk {ε α : Type} : Except ε α → Bool
  | .ok _ => true
  | .error _ => false

mutual

/-- Well-formedness of the stored dictionaries along a subtree: every
child label is registered in its parent's `_transitions` and `_autonomy`
with a non-`None` dictionary covering all of the child's declared
outcomes — the property `add`-time validation is specified to ensure. -/
def wfNode : SNode → Bool
  | .leaf _ _ _ => true
  | .cont _ _ _ tr au cs => wfChildren tr au cs

/-- `wfNode` over a container's children list. -/
def wfChildren (tr : List (String × TransMap))
    (au : List (String × Option AutonomyMap)) : List SNode → Bool
  | [] => true
  | c :: rest =>
      exceptIsOk (childTransitions tr c.name c.outcomes) &&
      exceptIsOk (childAutonomy au c.name c.outcomes) &&
      wfNode c && wfChildren tr au rest

end

/-- A node of the tree as seen by the stop notification: a leaf
`OperatableState` or a nested `OperatableStateMachine`, each with its
`_is_controlled` flag. -/
inductive TNode where
  | leaf (controlled : Bool)
  | cont (controlled : Bool) (children : List TNode)

/-- The observable effect of a stop notification on a subtree: for each
node, how many times its `on_stop` hook was invoked and its
`_is_controlled` flag afterwards. -/
inductive RTree where
  | leaf (stopCount : Nat) (controlled : Bool)
  | cont (stopCount : Nat) (controlled : Bool) (children : List RTree)

mutual

/-- Effect of the `_notify_stop` loop body on one child `state`: a leaf
gets `state.on_stop()` once; a nested container gets `state.on_stop()`
and then `state._notify_stop()`, whose own first action is
`self.on_stop()` again, so its hook runs twice before its children are
visited; finally the child's ros control is disabled when enabled. -/
def stopChild : TNode → RTree
  | .leaf _ => .leaf 1 false
  | .cont _ cs => .cont 2 false (stopChildren cs)

/-- Effect of the `_notify_stop` loop on the `_states` list. -/
def stopChildren : List TNode → List RTree
  | [] => []
  | c :: rest => stopChild c :: stopChildren rest

end

/-- `_notify_stop()` invoked on a node: `self.on_stop()` once (the
caller's own flag is not touched here), then the loop over `_states`. -/
def notify_stop : TNode → RTree
  | .leaf c => .leaf 1 c
  | .cont c cs => .cont 1 c (stopChildren cs)

mutual

/-- Holds when every node of an effect subtree, viewed as a strict
descendant of the stopped root, had its hook run once (leaf) or twice
(nested container) and its remote-control flag disabled. -/
def rtreeOK : RTree → Bool
  | .leaf n c => n == 1 && c == false
  | .cont n c cs => n == 2 && c == false && rforestOK cs

/-- `rtreeOK` on every subtree of a list. -/
def rforestOK : List RTree → Bool
  | [] => true
  | t :: ts => rtreeOK t && rforestOK ts

end

/-- `completeEntry` only rewrites per-outcome fields, never the path. -/
theorem completeEntry_map_path (outs trans : List String) (auts : List Int)
    (l : List ContainerMsg) :
    (completeEntry outs trans auts l).map ContainerMsg.path =
      l.map ContainerMsg.path := by
  cases l <;> simp [completeEntry]

/-- `setHeadOutcomes` only rewrites the outcomes field, never the path. -/
theorem setHeadOutcomes_map_path (outs : List String) (l : List ContainerMsg) :
    (setHeadOutcomes outs l).map ContainerMsg.path = l.map ContainerMsg.path := by
  cases l <;> simp [setHeadOutcomes]

/-- `setHeadOutcomes` leaves every entry after the first untouched. -/
theorem setHeadOutcomes_tail (outs : List String) (l : List ContainerMsg) :
    (setHeadOutcomes outs l).tail = l.tail := by
  cases l <;> simp [setHeadOutcomes]

/-- Completing a child's head entry with per-outcome lists of matching
length preserves `entryLenOK` across the whole list. -/
theorem completeEntry_all_lenOK (outs trans : List String) (auts : List Int)
    (hl : trans.length = outs.length) (ha : auts.length = outs.length)
    (l : List ContainerMsg) (h : l.all entryLenOK = true) :
    (completeEntry outs trans auts l).all entryLenOK = true := by
  cases l with
  | nil => rfl
  | cons e es =>
      simp [completeEntry, entryLenOK, List.all_cons] at h ⊢
      exact ⟨⟨hl, ha⟩, h.2⟩

/-- A result that `exceptIsOk` accepts is an `.ok`. -/
theorem exceptIsOk_ok {ε α : Type} (x : Except ε α)
    (h : exceptIsOk x = true) : ∃ v, x = Except.ok v := by
  cases x with
  | ok v => exact ⟨v, rfl⟩
  | error e => simp [exceptIsOk] at h

/-- A successful comprehension yields one value per requested key. -/
theorem lookupAll_length {α : Type} (m : List (String × α))
    (outs : List String) (vs : List α)
    (h : lookupAll m outs = Except.ok vs) : vs.length = outs.length := by
  induction outs generalizing vs with
  | nil =>
      simp [lookupAll] at h
      subst h
      rfl
  | cons o rest ih =>
      simp only [lookupAll] at h
      cases hl : lookupStr m o with
      | none => rw [hl] at h; simp at h
      | some v =>
          rw [hl] at h
          cases hr : lookupAll m rest with
          | error e => rw [hr] at h; simp at h
          | ok vs2 =>
              rw [hr] at h
              simp at h
              subst h
              simp [List.length_cons, ih vs2 hr]

/-- A successful transition comprehension yields one target per
outcome. -/
theorem childTransitions_length (tr : List (String × TransMap))
    (cname : String) (outs : List String) (trans : List String)
    (h : childTransitions tr cname outs = Except.ok trans) :
    trans.length = outs.length := by
  unfold childTransitions at h
  cases hl : lookupStr tr cname with
  | none => rw [hl] at h; simp at h
  | some m =>
      rw [hl] at h
      exact lookupAll_length m outs trans h

/-- A successful autonomy comprehension yields one level per outcome. -/
theorem childAutonomy_length (au : List (String × Option AutonomyMap))
    (cname : String) (outs : List String) (auts : List Int)
    (h : childAutonomy au cname outs = Except.ok auts) :
    auts.length = outs.length := by
  unfold childAutonomy at h
  cases hl : lookupStr au cname with
  | none => rw [hl] at h; simp at h
  | some om =>
      cases om with
      | none => rw [hl] at h; simp at h
      | some m =>
          rw [hl] at h
          exact lookupAll_length m outs auts h

mutual

/-- On a subtree whose dictionaries are well formed, the structure build
succeeds, its entry paths are exactly the depth-first,
parent-before-children path enumeration, and every entry has one
transition target and one autonomy value per recorded outcome (the
subtree root's own entry has all three lists empty until its parent
completes it). -/
theorem add_to_structure_wf (n : SNode) (h : wfNode n = true) :
    ∃ entries, add_to_structure_msg n = Except.ok entries ∧
      entries.map ContainerMsg.path = preorderPaths n ∧
      entries.all entryLenOK = true := by
  cases n with
  | leaf nm p outs =>
      exact ⟨[{ path := p }], rfl, rfl, rfl⟩
  | cont nm p outs tr au cs =>
      simp only [wfNode] at h
      obtain ⟨entries, he, hp, ha⟩ := children_to_structure_wf tr au cs h
      refine ⟨{ path := p, children := cs.map SNode.name } :: entries, ?_, ?_, ?_⟩
      · simp [add_to_structure_msg, he]
      · simp [preorderPaths, hp]
      · simp only [List.all_cons, Bool.and_eq_true]
        exact ⟨rfl, ha⟩

/-- List version of `add_to_structure_wf` for sibling subtrees. -/
theorem children_to_structure_wf (tr : List (String × TransMap))
    (au : List (String × Option AutonomyMap)) (cs : List SNode)
    (h : wfChildren tr au cs = true) :
    ∃ entries, children_to_structure_msg tr au cs = Except.ok entries ∧
      entries.map ContainerMsg.path = preorderPathsList cs ∧
      entries.all entryLenOK = true := by
  cases cs with
  | nil => exact ⟨[], rfl, rfl, rfl⟩
  | cons c rest =>
      simp only [wfChildren, Bool.and_eq_true] at h
      obtain ⟨⟨⟨htr, hau⟩, hwfc⟩, hwfr⟩ := h
      obtain ⟨ts, htrans⟩ := exceptIsOk_ok _ htr
      obtain ⟨auts, hauts⟩ := exceptIsOk_ok _ hau
      obtain ⟨centries, hce, hcp, hca⟩ := add_to_structure_wf c hwfc
      obtain ⟨rentries, hre, hrp, hra⟩ := children_to_structure_wf tr au rest hwfr
      refine ⟨completeEntry c.outcomes ts auts centries ++ rentries, ?_, ?_, ?_⟩
      · simp [children_to_structure_msg, hce, htrans, hauts, hre]
      · simp [List.map_append, completeEntry_map_path, hcp, hrp,
          preorderPathsList]
      · simp only [List.all_append, Bool.and_eq_true]
        exact ⟨completeEntry_all_lenOK _ _ _
            (childTransitions_length tr c.name c.outcomes ts htrans)
            (childAutonomy_length au c.name c.outcomes auts hauts) _ hca,
          hra⟩

end

/-- A predicate holding on every element of a list holds on its tail. -/
theorem all_of_tail {α : Type} (p : α → Bool) (l : List α)
    (h : l.all p = true) : l.tail.all p = true := by
  cases l with
  | nil => rfl
  | cons a l2 =>
      rw [List.all_cons, Bool.and_eq_true] at h
      exact h.2

mutual

/-- Every child visited by the `_notify_stop` loop ends with its hook run
once (leaf) or twice (nested container) and ros control disabled, and so
do all of its own descendants. -/
theorem stopChild_ok (t : TNode) : rtreeOK (stopChild t) = true := by
  cases t with
  | leaf c => rfl
  | cont c cs =>
      simp [stopChild, rtreeOK]
      exact stopChildren_ok cs

/-- List version of `stopChild_ok` over the `_states` list. -/
theorem stopChildren_ok (cs : List TNode) :
    rforestOK (stopChildren cs) = true := by
  cases cs with
  | nil => rfl
  | cons c rest =>
      simp [stopChildren, rforestOK]
      exact ⟨stopChild_ok c, stopChildren_ok rest⟩

end

/-- C1 (counterexample): the claim says an outcome with no entry in the
label's autonomy map is not allowed; on the code, child `a` registered
with an empty autonomy map and the default autonomy level `3` yields
`is_transition_allowed = True` for the unregistered outcome `done`,
because the missing entry defaults to required level `-1`. -/
theorem missing_autonomy_entry_allowed_cex :
    is_transition_allowed [("a", some [])] autonomy_level_default "a" "done" =
      Except.ok true ∧
    (Except.ok true : Except PyErr Bool) ≠ Except.ok false :=
  ⟨rfl, by simp⟩

/-- C1 (amended): for a child label registered with an autonomy
dictionary, `is_transition_allowed` returns true iff the required level
recorded for the outcome is strictly below the current autonomy level,
where a missing outcome entry is treated as requiring level `-1` (the
most permissive default), hence allowed at every level above `-1`. -/
theorem is_transition_allowed_gate_spec (aut : AutonomyDict) (m : AutonomyMap)
    (label outcome : String) (level : Int)
    (hreg : lookupStr aut label = some (some m)) :
    (∀ r, lookupStr m outcome = some r →
      (is_transition_allowed aut level label outcome = Except.ok true ↔
        r < level)) ∧
    (lookupStr m outcome = none →
      (is_transition_allowed aut level label outcome = Except.ok true ↔
        (-1 : Int) < level)) := by
  constructor
  · intro r hr
    simp [is_transition_allowed, hreg, dictGetD, hr]
  · intro hr
    simp [is_transition_allowed, hreg, dictGetD, hr]

/-- C1 (witness): a registered pair with required level `0` is allowed at
level `3`. -/
theorem is_transition_allowed_gate_spec_witness :
    is_transition_allowed [("a", some [("done", 0)])] 3 "a" "done" =
      Except.ok true :=
  ((is_transition_allowed_gate_spec [("a", some [("done", 0)])] [("done", 0)]
      "a" "done" 3 rfl).1 0 rfl).mpr (by norm_num)

/-- C2 (counterexample): the claim says every descendant's stop hook runs
exactly once; on the code, a root with a single nested state machine
child runs that child's `on_stop` twice — once directly in the parent's
loop and once again as the first action of the child's own
`_notify_stop`. -/
theorem notify_stop_double_stop_cex :
    notify_stop (TNode.cont false [TNode.cont false []]) =
      RTree.cont 1 false [RTree.cont 2 false []] ∧ (2 : Nat) ≠ 1 :=
  ⟨rfl, by norm_num⟩

/-- C2 (amended): after `_notify_stop` on the root, the root's own hook
has run once and its flag is untouched, every descendant leaf state's
stop hook has run exactly once, every descendant nested state machine's
stop hook has run exactly twice, and every descendant's remote-control
flag is disabled. -/
theorem notify_stop_spec (c : Bool) (cs : List TNode) :
    notify_stop (TNode.cont c cs) = RTree.cont 1 c (stopChildren cs) ∧
    rforestOK (stopChildren cs) = true :=
  ⟨rfl, stopChildren_ok cs⟩

/-- C3: the execution wrapper is a total function of the inner step's
result — it never re-raises.  If the inner step raises, the wrapper
returns no outcome, records the exception as Last Exception and leaves
the active state unchanged; if the inner step succeeds, it returns the
produced outcome and clears Last Exception. -/
theorem execute_current_state_isolates_failures {E S : Type}
    (inner : S → Except E (Option String × S)) (st : WrapperState E S) :
    (∀ e, inner st.current_state = Except.error e →
      execute_current_state inner st =
        (none, { current_state := st.current_state, last_exception := some e }) ∧
      (execute_current_state inner st).2.current_state = st.current_state) ∧
    (∀ o s2, inner st.current_state = Except.ok (o, s2) →
      execute_current_state inner st =
        (o, { current_state := s2, last_exception := none })) := by
  constructor
  · intro e he
    unfold execute_current_state
    rw [he]
    exact ⟨rfl, rfl⟩
  · intro o s2 ho
    unfold execute_current_state
    rw [ho]

/-- C3 (witness): a concrete failing inner step is absorbed into Last
Exception with no outcome. -/
theorem execute_current_state_isolates_failures_witness :
    execute_current_state
      (fun _ : Nat =>
        (Except.error PyErr.keyError : Except PyErr (Option String × Nat)))
      { current_state := 0, last_exception := none } =
    (none, { current_state := 0, last_exception := some PyErr.keyError }) :=
  ((execute_current_state_isolates_failures
      (fun _ : Nat =>
        (Except.error PyErr.keyError : Except PyErr (Option String × Nat)))
      { current_state := 0, last_exception := none }).1 PyErr.keyError rfl).1

/-- C4 (counterexample): the claim says an empty active path yields
checksum `0`; on the code it yields `1`, the Adler-32 of empty input. -/
theorem empty_path_checksum_cex :
    (get_latest_status (some 1) (some "")).current_state_checksum = 1 ∧
    (1 : Nat) ≠ 0 :=
  ⟨rfl, by norm_num⟩

/-- C4 (amended): `get_latest_status` is a function of the snapshot whose
checksum is the Adler-32 of the path's UTF-8 bytes reduced mod `2 ^ 31`
(top bit cleared, so always below `2 ^ 31`); an absent path yields `0`
(an empty string path yields `1`, the Adler-32 of empty input). -/
theorem get_latest_status_checksum_spec (beh_id : Option Int) (p : String) :
    (get_latest_status beh_id (some p)).current_state_checksum =
      adler32 (utf8Bytes p) % 2 ^ 31 ∧
    (get_latest_status beh_id none).current_state_checksum = 0 ∧
    (get_latest_status beh_id (some p)).current_state_checksum < 2 ^ 31 := by
  refine ⟨?_, rfl, ?_⟩
  · show adler32 (utf8Bytes p) &&& 0x7fffffff = _
    have h := Nat.and_pow_two_sub_one_eq_mod (adler32 (utf8Bytes p)) 31
    norm_num at h ⊢
    exact h
  · exact Nat.and_lt_two_pow _ (by norm_num)

/-- C5: the autonomy gate is monotone in the process-wide autonomy level
— any transition allowed at a lower level is allowed at every higher
level. -/
theorem is_transition_allowed_monotone (aut : AutonomyDict)
    (label outcome : String) (L1 L2 : Int) (h12 : L1 < L2)
    (hallow : is_transition_allowed aut L1 label outcome = Except.ok true) :
    is_transition_allowed aut L2 label outcome = Except.ok true := by
  cases h : lookupStr aut label with
  | none => simp [is_transition_allowed, h] at hallow
  | some om =>
      cases om with
      | none => simp [is_transition_allowed, h] at hallow
      | some m =>
          simp [is_transition_allowed, h] at hallow ⊢
          omega

/-- C5 (witness): a transition with required level `0` allowed at level
`1` is allowed at level `2`. -/
theorem is_transition_allowed_monotone_witness :
    is_transition_allowed [("a", some [("done", 0)])] 2 "a" "done" =
      Except.ok true :=
  is_transition_allowed_monotone [("a", some [("done", 0)])] "a" "done" 1 2
    (by norm_num) rfl

/-- C6: whenever `process_sync_request` runs with the pending-sync flag
set, it clears the flag and publishes a `BehaviorSync` message followed
by a `CommandFeedback` naming `sync`, with the masked Adler-32 checksum
of the deep path when one resolves, and checksum `0` both when no deep
active state exists and when resolving it raises. -/
theorem process_sync_request_spec (st : SyncProcState)
    (deep : Except PyErr (Option String)) (h : st.inner_sync_request = true) :
    (process_sync_request st deep).1.inner_sync_request = false ∧
    (∀ p, deep = Except.ok (some p) →
      (process_sync_request st deep).2 =
        [PubMsg.behaviorSync st.id (adler32 (utf8Bytes p) &&& 0x7fffffff),
         PubMsg.commandFeedback "sync" []]) ∧
    (deep = Except.ok none →
      (process_sync_request st deep).2 =
        [PubMsg.behaviorSync st.id 0, PubMsg.commandFeedback "sync" []]) ∧
    (∀ e, deep = Except.error e →
      (process_sync_request st deep).2 =
        [PubMsg.behaviorSync st.id 0, PubMsg.commandFeedback "sync" []]) := by
  refine ⟨?_, ?_, ?_, ?_⟩
  · simp [process_sync_request, h]
  · intro p hp
    subst hp
    simp [process_sync_request, h]
  · intro hp
    subst hp
    simp [process_sync_request, h]
  · intro e he
    subst he
    simp [process_sync_request, h]

/-- C6 (witness): with the flag set and no deep active state, the flag is
cleared and the zero-checksum sync plus the sync feedback are sent. -/
theorem process_sync_request_spec_witness :
    (process_sync_request ⟨some 1, "be", true, true, 3⟩
        (Except.ok none)).1.inner_sync_request = false ∧
    (process_sync_request ⟨some 1, "be", true, true, 3⟩ (Except.ok none)).2 =
      [PubMsg.behaviorSync (some 1) 0, PubMsg.commandFeedback "sync" []] := by
  have h := process_sync_request_spec ⟨some 1, "be", true, true, 3⟩
    (Except.ok none) rfl
  exact ⟨h.1, h.2.2.1 rfl⟩

/-- C7: the attach callback sets the process-wide autonomy level to the
received value, enables remote control, sets the pending explicit-sync
flag, and publishes a command feedback naming `attach` whose arguments
contain this state machine's name. -/
theorem attach_callback_spec (st : SyncProcState) (level : Int) :
    (attach_callback st level).1.autonomy_level = level ∧
    (attach_callback st level).1.is_controlled = true ∧
    (attach_callback st level).1.inner_sync_request = true ∧
    (attach_callback st level).2 =
      [PubMsg.commandFeedback "attach" [st.name]] ∧
    st.name ∈ [st.name] :=
  ⟨rfl, rfl, rfl, rfl, by simp⟩

/-- C8 (counterexample): the claim says every structure request publishes
the description and then enables remote control; on the code, a tree with
a child added with `autonomy=None` (stored unvalidated by `add`) makes
`self._autonomy[state.name][outcome]` raise `TypeError` during
serialization, so the callback raises before publishing anything and
before `_enable_ros_control()` runs. -/
theorem structure_request_raises_cex :
    mirror_structure_callback ⟨some 1, "be", false, false, 3⟩
      (SNode.cont "r" "/r" ["done"] [("a", [("done", "done")])] [("a", none)]
        [SNode.leaf "a" "/r/a" ["done"]]) = Except.error PyErr.typeError :=
  rfl

/-- C8 (amended): for a structure request on a tree each of whose
children has registered transition and (non-`None`) autonomy
dictionaries covering its declared outcomes, the handler publishes the
full structural description — whose entry paths are exactly the
depth-first, parent-before-children enumeration of the tree (hence
exactly one entry per node), every entry below the root carrying one
transition target and one autonomy value per declared outcome — and then
enables remote control; when a child lacks such dictionaries the
serialization raises before publishing, and remote control stays off. -/
theorem mirror_structure_callback_spec (st : SyncProcState) (root : SNode)
    (hwf : wfNode root = true) :
    ∃ msg : ContainerStructure,
      build_structure_msg root st.id = Except.ok msg ∧
      mirror_structure_callback st root =
        Except.ok ({ st with is_controlled := true },
          [PubMsg.containerStructure msg]) ∧
      msg.containers.map ContainerMsg.path = preorderPaths root ∧
      msg.containers.tail.all entryLenOK = true := by
  obtain ⟨entries, he, hp, ha⟩ := add_to_structure_wf root hwf
  refine ⟨{ containers := setHeadOutcomes root.outcomes entries
            behavior_id := st.id }, ?_, ?_, ?_, ?_⟩
  · simp [build_structure_msg, he]
  · simp [mirror_structure_callback, build_structure_msg, he]
  · show (setHeadOutcomes root.outcomes entries).map ContainerMsg.path = _
    rw [setHeadOutcomes_map_path]
    exact hp
  · show (setHeadOutcomes root.outcomes entries).tail.all entryLenOK = true
    rw [setHeadOutcomes_tail]
    exact all_of_tail _ _ ha

/-- C8 (witness): on a concrete two-node tree with complete dictionaries
the callback publishes the structure and enables remote control. -/
theorem mirror_structure_callback_spec_witness :
    ∃ msg : ContainerStructure,
      build_structure_msg
        (SNode.cont "r" "/r" ["done"] [("a", [("done", "done")])]
          [("a", some [("done", 0)])] [SNode.leaf "a" "/r/a" ["done"]])
        (some 1) = Except.ok msg ∧
      mirror_structure_callback ⟨some 1, "be", false, false, 3⟩
        (SNode.cont "r" "/r" ["done"] [("a", [("done", "done")])]
          [("a", some [("done", 0)])] [SNode.leaf "a" "/r/a" ["done"]]) =
        Except.ok (⟨some 1, "be", false, true, 3⟩,
          [PubMsg.containerStructure msg]) ∧
      msg.containers.map ContainerMsg.path =
        preorderPaths
          (SNode.cont "r" "/r" ["done"] [("a", [("done", "done")])]
            [("a", some [("done", 0)])] [SNode.leaf "a" "/r/a" ["done"]]) ∧
      msg.containers.tail.all entryLenOK = true :=
  mirror_structure_callback_spec ⟨some 1, "be", false, false, 3⟩
    (SNode.cont "r" "/r" ["done"] [("a", [("done", "done")])]
      [("a", some [("done", 0)])] [SNode.leaf "a" "/r/a" ["done"]]) rfl

/-- C9 (counterexample): the claim says `is_transition_allowed` returns a
boolean without raising for every label and outcome; on the code it
raises `KeyError` for a label that was never added and `AttributeError`
for a child added with `autonomy=None`. -/
theorem is_transition_allowed_raises_cex :
    is_transition_allowed [] autonomy_level_default "never" "done" =
      Except.error PyErr.keyError ∧
    is_transition_allowed [("child", none)] autonomy_level_default "child"
      "done" = Except.error PyErr.attributeError :=
  ⟨rfl, rfl⟩

/-- C9 (amended): `is_transition_allowed` is total in the outcome for a
label registered with an autonomy dictionary (the `.get` default absorbs
unknown outcomes), but raises `KeyError` for an unregistered label and
`AttributeError` for a child registered with no autonomy map, while
`get_required_autonomy` raises a `LookupError` (`KeyError`) when the
outcome is not registered for the currently active child. -/
theorem transition_lookup_spec :
    (∀ (aut : AutonomyDict) (level : Int) (label outcome : String)
        (m : AutonomyMap), lookupStr aut label = some (some m) →
        ∃ b, is_transition_allowed aut level label outcome = Except.ok b) ∧
    (∀ (aut : AutonomyDict) (level : Int) (label outcome : String),
        lookupStr aut label = none →
        is_transition_allowed aut level label outcome =
          Except.error PyErr.keyError) ∧
    (∀ (aut : AutonomyDict) (level : Int) (label outcome : String),
        lookupStr aut label = some none →
        is_transition_allowed aut level label outcome =
          Except.error PyErr.attributeError) ∧
    (∀ (aut : AutonomyDict) (label outcome : String) (m : AutonomyMap),
        lookupStr aut label = some (some m) → lookupStr m outcome = none →
        get_required_autonomy aut label outcome =
          Except.error PyErr.keyError ∧
        PyErr.keyError.isLookupError = true) := by
  refine ⟨?_, ?_, ?_, ?_⟩
  · intro aut level label outcome m hm
    refine ⟨decide (dictGetD m outcome (-1) < level), ?_⟩
    simp [is_transition_allowed, hm]
  · intro aut level label outcome hm
    simp [is_transition_allowed, hm]
  · intro aut level label outcome hm
    simp [is_transition_allowed, hm]
  · intro aut label outcome m hm ho
    simp [get_required_autonomy, hm, ho, PyErr.isLookupError]

/-- C9 (witness): concrete error results for an unregistered label and
for an outcome missing from the active child's dictionary. -/
theorem transition_lookup_spec_witness :
    is_transition_allowed [] 3 "never" "done" = Except.error PyErr.keyError ∧
    get_required_autonomy [("a", some [])] "a" "done" =
      Except.error PyErr.keyError :=
  ⟨transition_lookup_spec.2.1 [] 3 "never" "done" rfl,
   (transition_lookup_spec.2.2.2 [("a", some [])] "a" "done" [] rfl rfl).1⟩

/-- C10: before `confirm` assigns a behavior identity (`self.id` still
`None`), `get_latest_status` still returns a message, carrying
`behavior_id = 0` and the usual checksum of the active-path snapshot. -/
theorem get_latest_status_unset_id (beh_id : Option Int) (path : Option String)
    (h : beh_id = none) :
    (get_latest_status beh_id path).behavior_id = some 0 ∧
    (get_latest_status beh_id path).current_state_checksum =
      pathChecksum path := by
  subst h
  exact ⟨rfl, rfl⟩

/-- C10 (witness): with an unset id and an active path the message holds
id `0` and the path checksum. -/
theorem get_latest_status_unset_id_witness :
    (get_latest_status none (some "x")).behavior_id = some 0 ∧
    (get_latest_status none (some "x")).current_state_checksum =
      pathChecksum (some "x") :=
  get_latest_status_unset_id none (some "x") rfl

end FlexBE
